import Mathlib

/-!
Shallow embedding of the SYS-Toolset script execution and scheduling engine:
`src/utils/windows_scheduler.py` (class `WindowsTaskScheduler`) and the
scheduling/execution parts of `src/gui/main_window.py` (`ScriptExecutorThread`,
`MainWindow` schedule-store helpers, `ScheduleDialog`), together with theorems
that check the natural-language specification's claims against this embedding.

Python strings are modelled as Lean `String`, dynamic dicts as inductive types
matching the shapes actually constructed by the code, the file system as an
association list from path to content, and the external `schtasks` tool as an
explicit outcome value (`Except` to account for raised exceptions).
-/

namespace SysToolset

/-- Python `str.replace(c, r)` for a one-character pattern: replace every
occurrence of the character `c` by `r`. -/
def replaceChar (s : String) (c r : Char) : String :=
  ⟨s.data.map fun x => if x = c then r else x⟩

/-- The fixed task-name marker `TASK_PREFIX = "SYS_Toolset_"`
(windows_scheduler.py:26). -/
def TASK_PREFIX : String := "SYS_Toolset_"

/-- Storage key used by the schedule store:
`script_name.replace(' ', '_').replace('/', '_').replace('\\', '_')`
(`MainWindow.get_schedule_filepath`, main_window.py:1496). -/
def storeSafeName (scriptName : String) : String :=
  replaceChar (replaceChar (replaceChar scriptName ' ' '_') '/' '_') '\\' '_'

/-- Safe name used for the generated wrapper file:
`script_name.replace(' ', '_').replace('/', '_').replace('\\', '_')`
(`WindowsTaskScheduler._create_wrapper_script`, windows_scheduler.py:221, and
`_delete_wrapper_script`, windows_scheduler.py:329). -/
def wrapperSafeName (scriptName : String) : String :=
  replaceChar (replaceChar (replaceChar scriptName ' ' '_') '/' '_') '\\' '_'

/-- Native task name derived in `create_task`, `delete_task` and `task_exists`:
`f"{self.TASK_PREFIX}{script_name.replace(' ', '_')}"`
(windows_scheduler.py:76, 142, 183). Only spaces are replaced here. -/
def taskNameOf (scriptName : String) : String :=
  TASK_PREFIX ++ replaceChar scriptName ' ' '_'

/-- Wrapper artifact file name `f"wrapper_{safe_name}.py"` relative to the
wrappers directory (windows_scheduler.py:222, 330). -/
def wrapperFileName (scriptName : String) : String :=
  "wrapper_" ++ wrapperSafeName scriptName ++ ".py"

/-- Schedule-store JSON file name `f"{safe_name}.json"` relative to the
schedules directory (`MainWindow.get_schedule_filepath`, main_window.py:1497). -/
def scheduleFileName (scriptName : String) : String :=
  storeSafeName scriptName ++ ".json"

/-- Full wrapper artifact path under `<base>/schedules/wrappers/`
(windows_scheduler.py:218-222). -/
def wrapperPathOf (scriptName : String) : String :=
  "schedules/wrappers/" ++ wrapperFileName scriptName

/-- Does the char list `needle` stand at the head of `hay`? -/
def startsWithChars : List Char → List Char → Bool
  | [], _ => true
  | _ :: _, [] => false
  | a :: as, b :: bs => a == b && startsWithChars as bs

/-- Does `hay` hold `needle` as a contiguous sublist? -/
def hasSubChars (needle : List Char) : List Char → Bool
  | [] => needle.isEmpty
  | c :: rest => startsWithChars needle (c :: rest) || hasSubChars needle rest

/-- Python `needle in hay` on strings: substring containment. -/
def strContains (hay needle : String) : Bool :=
  hasSubChars needle.data hay.data

/-- Python `str.lower()` (modelled per character). -/
def strLower (s : String) : String :=
  ⟨s.data.map Char.toLower⟩

/-- A raised Python exception, carrying what `str(e)` would show. -/
inductive PyErr where
  | nameError (ident : String)
  | attributeError (msg : String)
  | valueError (msg : String)
  | osError (msg : String)
  deriving DecidableEq, Repr

/-- Python `str(e)` on the modelled exceptions. -/
def PyErr.str : PyErr → String
  | .nameError n => "name '" ++ n ++ "' is not defined"
  | .attributeError m => m
  | .valueError m => m
  | .osError m => m

/-- Equality on `Except` outcomes is decidable when it is on both sides. -/
def exceptDecEq {ε α : Type} [DecidableEq ε] [DecidableEq α] :
    DecidableEq (Except ε α)
  | .error e, .error f =>
    if h : e = f then .isTrue (h ▸ rfl)
    else .isFalse fun hh => h (by cases hh; rfl)
  | .error _, .ok _ => .isFalse Except.noConfusion
  | .ok _, .error _ => .isFalse Except.noConfusion
  | .ok a, .ok b =>
    if h : a = b then .isTrue (h ▸ rfl)
    else .isFalse fun hh => h (by cases hh; rfl)

instance {ε α : Type} [DecidableEq ε] [DecidableEq α] :
    DecidableEq (Except ε α) := exceptDecEq

/-- The result `subprocess.run` returns when the external tool did run. -/
structure SchtasksResult where
  returncode : Nat
  stdout : String
  stderr : String
  deriving DecidableEq, Repr

/-- The file system as the set of paths that currently exist. -/
abbrev FS := List String

/-- Create (or overwrite) the file at `p`. -/
def fsAdd (p : String) (fs : FS) : FS :=
  if p ∈ fs then fs else p :: fs

/-- `Path.unlink(missing_ok=True)`: remove the file at `p` if present. -/
def fsRemove (p : String) (fs : FS) : FS :=
  fs.filter (fun q => q ≠ p)

/-- The "task not found" test of `delete_task` (windows_scheduler.py:163):
`"cannot find the file" in result.stderr.lower() or "impossibile trovare" in
result.stderr.lower()`. -/
def notFoundStderr (stderr : String) : Bool :=
  strContains (strLower stderr) "cannot find the file" ||
    strContains (strLower stderr) "impossibile trovare"

/-- `WindowsTaskScheduler.delete_task` (windows_scheduler.py:132-171).
`os` is the outcome of the `schtasks /Delete` call (`.error` = the call raised).
Returns the boolean result together with the file system after the call: on
return code `0` the wrapper script is deleted too (`_delete_wrapper_script`);
on a non-zero exit whose stderr reports the task as missing the method returns
`True` without touching the wrapper; any other outcome returns `False`. -/
def deleteTask (scriptName : String) (os : Except PyErr SchtasksResult)
    (fs : FS) : Bool × FS :=
  match os with
  | .error _ => (false, fs)
  | .ok r =>
    if r.returncode = 0 then
      (true, fsRemove (wrapperPathOf scriptName) fs)
    else if notFoundStderr r.stderr then
      (true, fs)
    else
      (false, fs)

/-- Python `sep in s` splitting helper: split a char list at every occurrence
of the non-empty separator `sep`. `fuel` bounds the recursion and is kernel
friendly; with `fuel ≥` the list length the fuel never runs out. `acc` holds
the current segment reversed. -/
def splitCharsAux (sep : List Char) : Nat → List Char → List Char →
    List (List Char)
  | _, [], acc => [acc.reverse]
  | 0, rest, acc => [acc.reverse ++ rest]
  | fuel + 1, c :: rest, acc =>
    if startsWithChars sep (c :: rest) then
      acc.reverse :: splitCharsAux sep fuel (rest.drop (sep.length - 1)) []
    else
      splitCharsAux sep fuel rest (c :: acc)

/-- Python `s.split(sep)` for a non-empty separator. -/
def splitOnStr (s sep : String) : List String :=
  (splitCharsAux sep.data s.data.length s.data []).map fun cs => ⟨cs⟩

/-! ### Decimal rendering and parsing of naturals (Python `str(n)` / digit scans) -/

/-- The character for a decimal digit value. -/
def digitChar (d : Nat) : Char := Char.ofNat (48 + d)

/-- Decimal digits of `n`, least significant first, by fueled division. -/
def natDigitsAux : Nat → Nat → List Nat
  | 0, _ => []
  | fuel + 1, n => if n = 0 then [] else n % 10 :: natDigitsAux fuel (n / 10)

/-- Decimal digit characters of `n`, most significant first. -/
def natChars (n : Nat) : List Char :=
  if n = 0 then ['0'] else (natDigitsAux n n).reverse.map digitChar

/-- Python `str(n)` for a non-negative integer. -/
def natToStr (n : Nat) : String :=
  ⟨natChars n⟩

/-- Value of a list of decimal digit characters, most significant first. -/
def charsVal (cs : List Char) : Nat :=
  cs.foldl (fun a c => 10 * a + (c.toNat - 48)) 0

/-- Parse a non-empty all-digit string. -/
def parseNatDigits (s : String) : Option Nat :=
  if s.data ≠ [] ∧ s.data.all (fun c => c.isDigit) then some (charsVal s.data) else none

/-- Zero-padded two-digit field (`strftime` `%m`, `%d`, `%H`, `%M`, `%S`). -/
def pad2 (n : Nat) : String :=
  if n < 10 then "0" ++ natToStr n else natToStr n

/-- Python whitespace for `str.strip()` (the characters that matter here). -/
def isWsChar (c : Char) : Bool :=
  c = ' ' || c = '\n' || c = '\t' || c = '\r'

/-- Python `str.strip()`. -/
def strStrip (s : String) : String :=
  ⟨((s.data.dropWhile isWsChar).reverse.dropWhile isWsChar).reverse⟩

/-! ### Datetimes (`datetime` objects and the formats the scheduler uses) -/

/-- A `datetime.datetime` value. -/
structure PyDateTime where
  year : Nat
  month : Nat
  day : Nat
  hour : Nat
  minute : Nat
  second : Nat
  deriving DecidableEq, Repr

/-- `strftime('%Y-%m-%dT%H:%M:%S')`. -/
def fmtDateTimeT (t : PyDateTime) : String :=
  natToStr t.year ++ "-" ++ pad2 t.month ++ "-" ++ pad2 t.day ++ "T" ++
    pad2 t.hour ++ ":" ++ pad2 t.minute ++ ":" ++ pad2 t.second

/-- `strftime('%Y-%m-%d')`. -/
def fmtDate (t : PyDateTime) : String :=
  natToStr t.year ++ "-" ++ pad2 t.month ++ "-" ++ pad2 t.day

/-- `datetime.strptime(s, '%d/%m/%Y %H:%M')` (windows_scheduler.py:429),
modelled as a partial parse with basic range validation. -/
def parseSlashDatetime (s : String) : Option PyDateTime :=
  match splitOnStr s " " with
  | [datePart, timePart] =>
    match splitOnStr datePart "/", splitOnStr timePart ":" with
    | [d, m, y], [h, mi] => do
      let dv ← parseNatDigits d
      let mv ← parseNatDigits m
      let yv ← parseNatDigits y
      let hv ← parseNatDigits h
      let miv ← parseNatDigits mi
      if 1 ≤ dv ∧ dv ≤ 31 ∧ 1 ≤ mv ∧ mv ≤ 12 ∧ y.length = 4 ∧
          hv ≤ 23 ∧ miv ≤ 59 then
        some ⟨yv, mv, dv, hv, miv, 0⟩
      else
        none
    | _, _ => none
  | _ => none

/-- One `YYYY-MM-DD` date component of an ISO datetime. -/
def parseIsoDate (s : String) : Option (Nat × Nat × Nat) :=
  match splitOnStr s "-" with
  | [y, m, d] => do
    let yv ← parseNatDigits y
    let mv ← parseNatDigits m
    let dv ← parseNatDigits d
    if y.length = 4 ∧ m.length = 2 ∧ d.length = 2 ∧
        1 ≤ mv ∧ mv ≤ 12 ∧ 1 ≤ dv ∧ dv ≤ 31 then
      some (yv, mv, dv)
    else
      none
  | _ => none

/-- One `HH:MM[:SS]` time component of an ISO datetime. -/
def parseIsoTime (s : String) : Option (Nat × Nat × Nat) :=
  match splitOnStr s ":" with
  | [h, mi] => do
    let hv ← parseNatDigits h
    let miv ← parseNatDigits mi
    if h.length = 2 ∧ mi.length = 2 ∧ hv ≤ 23 ∧ miv ≤ 59 then
      some (hv, miv, 0)
    else
      none
  | [h, mi, sec] => do
    let hv ← parseNatDigits h
    let miv ← parseNatDigits mi
    let sv ← parseNatDigits sec
    if h.length = 2 ∧ mi.length = 2 ∧ sec.length = 2 ∧
        hv ≤ 23 ∧ miv ≤ 59 ∧ sv ≤ 59 then
      some (hv, miv, sv)
    else
      none
  | _ => none

/-- `datetime.fromisoformat(s)` (windows_scheduler.py:432), modelled on the
`YYYY-MM-DD[(T| )HH:MM[:SS]]` forms. -/
def parseIsoDatetime (s : String) : Option PyDateTime :=
  match (if strContains s "T" then splitOnStr s "T" else splitOnStr s " ") with
  | [dPart] => do
    let (y, m, d) ← parseIsoDate dPart
    some ⟨y, m, d, 0, 0, 0⟩
  | [dPart, tPart] => do
    let (y, m, d) ← parseIsoDate dPart
    let (h, mi, sec) ← parseIsoTime tPart
    some ⟨y, m, d, h, mi, sec⟩
  | _ => none

/-- The date handling of the `once` branch of `_generate_trigger_xml`
(windows_scheduler.py:426-432): slash format if the string holds `'/'`,
ISO format otherwise. -/
def parseOnceDatetime (s : String) : Option PyDateTime :=
  if strContains s "/" then parseSlashDatetime s else parseIsoDatetime s

/-! ### Trigger configurations and `_generate_trigger_xml` -/

/-- A normalized trigger configuration dict, by the shapes the code builds and
reads (`type` plus the keys each `_generate_trigger_xml` branch looks up). -/
inductive TriggerConfig where
  | once (datetimeStr : String)
  | daily (timeStr : String)
  | weekly (timeStr : String) (days : List String)
  | intervalT (intervalType : String) (intervalValue : Nat)
  | other (ty : String)
  deriving DecidableEq, Repr

/-- A trigger dict as `create_task` receives it: either already flat or the
GUI's `{'type': ..., 'data': {...}}` shape, which lines 84-88 of
windows_scheduler.py flatten by merging `data` into the dict. -/
inductive RawTrigger where
  | flat (cfg : TriggerConfig)
  | nested (cfg : TriggerConfig)
  deriving DecidableEq, Repr

/-- The normalization of windows_scheduler.py:84-88: a nested dict is
flattened, a flat one passes through. -/
def normalizeTrigger : RawTrigger → TriggerConfig
  | .flat c => c
  | .nested c => c

/-- The `day_mapping` table of windows_scheduler.py:464-472. -/
def dayMapping (d : String) : Option String :=
  if d = "mon" then some "Monday"
  else if d = "tue" then some "Tuesday"
  else if d = "wed" then some "Wednesday"
  else if d = "thu" then some "Thursday"
  else if d = "fri" then some "Friday"
  else if d = "sat" then some "Saturday"
  else if d = "sun" then some "Sunday"
  else none

/-- The `TimeTrigger` block of the `once` branch (windows_scheduler.py:437-440). -/
def onceTriggerXml (startBoundary : String) : String :=
  "    <TimeTrigger>\n      <StartBoundary>" ++ startBoundary ++
    "</StartBoundary>\n      <Enabled>true</Enabled>\n    </TimeTrigger>"

/-- The `CalendarTrigger` block of the `daily` branch
(windows_scheduler.py:447-453). -/
def dailyTriggerXml (startDate hour minute : String) : String :=
  "    <CalendarTrigger>\n      <StartBoundary>" ++ startDate ++ "T" ++ hour ++
    ":" ++ minute ++ ":00</StartBoundary>\n      <Enabled>true</Enabled>\n" ++
    "      <ScheduleByDay>\n        <DaysInterval>1</DaysInterval>\n" ++
    "      </ScheduleByDay>\n    </CalendarTrigger>"

/-- The `CalendarTrigger` block of the `weekly` branch
(windows_scheduler.py:480-489). -/
def weeklyTriggerXml (startDate hour minute daysXmlStr : String) : String :=
  "    <CalendarTrigger>\n      <StartBoundary>" ++ startDate ++ "T" ++ hour ++
    ":" ++ minute ++ ":00</StartBoundary>\n      <Enabled>true</Enabled>\n" ++
    "      <ScheduleByWeek>\n        <DaysOfWeek>\n" ++ daysXmlStr ++
    "\n        </DaysOfWeek>\n        <WeeksInterval>1</WeeksInterval>\n" ++
    "      </ScheduleByWeek>\n    </CalendarTrigger>"

/-- The `TimeTrigger` block of the `interval` branch
(windows_scheduler.py:507-514). -/
def intervalTriggerXml (repetition startDate : String) : String :=
  "    <TimeTrigger>\n      <Repetition>\n        <Interval>" ++ repetition ++
    "</Interval>\n        <StopAtDurationEnd>false</StopAtDurationEnd>\n" ++
    "      </Repetition>\n      <StartBoundary>" ++ startDate ++
    "</StartBoundary>\n      <Enabled>true</Enabled>\n    </TimeTrigger>"

/-- `WindowsTaskScheduler._generate_trigger_xml` (windows_scheduler.py:409-516).
`now` stands for `datetime.now()`. The `once` branch's fallback for an
unparsable date evaluates `timedelta`, a name the module never imports
(windows_scheduler.py:17 imports only `datetime`), so that path raises
`NameError` instead of producing a start time. A `daily`/`weekly` time string
without exactly one `':'` makes the two-variable unpacking raise `ValueError`.
An unrecognized type returns the empty string. -/
def generateTriggerXml (now : PyDateTime) (cfg : TriggerConfig) :
    Except PyErr String :=
  match cfg with
  | .once dtStr =>
    match parseOnceDatetime dtStr with
    | some t => .ok (onceTriggerXml (fmtDateTimeT t))
    | none => .error (.nameError "timedelta")
  | .daily timeStr =>
    match splitOnStr timeStr ":" with
    | [h, m] => .ok (dailyTriggerXml (fmtDate now) h m)
    | _ => .error (.valueError "values to unpack")
  | .weekly timeStr days =>
    match splitOnStr timeStr ":" with
    | [h, m] =>
      let daysXml := days.filterMap fun d =>
        (dayMapping (strLower d)).map fun w => "        <" ++ w ++ " />"
      .ok (weeklyTriggerXml (fmtDate now) h m (String.intercalate "\n" daysXml))
    | _ => .error (.valueError "values to unpack")
  | .intervalT intervalType intervalValue =>
    let repetition :=
      if intervalType = "minutes" then "PT" ++ natToStr intervalValue ++ "M"
      else if intervalType = "hours" then "PT" ++ natToStr intervalValue ++ "H"
      else if intervalType = "days" then "P" ++ natToStr intervalValue ++ "D"
      else "PT1H"
    .ok (intervalTriggerXml repetition (fmtDateTimeT now))
  | .other _ => .ok ""

/-! ### `create_task` -/

/-- Temp XML file path `temp_dir / f"{task_name}.xml"` under
`<base>/schedules/temp/` (windows_scheduler.py:400-403). -/
def xmlPathOf (scriptName : String) : String :=
  "schedules/temp/" ++ taskNameOf scriptName ++ ".xml"

/-- The task-definition document of `_create_task_xml`
(windows_scheduler.py:351-392), with the one `_generate_trigger_xml` result
interpolated into the `<Triggers>` section. -/
def taskXmlContent (scriptName triggerXml pythonExe wrapperScript workingDir :
    String) : String :=
  "<?xml version=\"1.0\" encoding=\"UTF-16\"?>\n" ++
  "<Task version=\"1.2\" xmlns=\"http://schemas.microsoft.com/windows/2004/02/mit/task\">\n" ++
  "  <RegistrationInfo>\n    <Description>Esecuzione automatica di " ++
  scriptName ++ "</Description>\n    <Author>SYS-Toolset</Author>\n" ++
  "  </RegistrationInfo>\n  <Triggers>\n" ++ triggerXml ++
  "\n  </Triggers>\n  <Principals>\n    <Principal id=\"Author\">\n" ++
  "      <LogonType>InteractiveToken</LogonType>\n" ++
  "      <RunLevel>LeastPrivilege</RunLevel>\n    </Principal>\n" ++
  "  </Principals>\n  <Settings>\n" ++
  "    <MultipleInstancesPolicy>IgnoreNew</MultipleInstancesPolicy>\n" ++
  "    <DisallowStartIfOnBatteries>false</DisallowStartIfOnBatteries>\n" ++
  "    <StopIfGoingOnBatteries>false</StopIfGoingOnBatteries>\n" ++
  "    <AllowHardTerminate>true</AllowHardTerminate>\n" ++
  "    <StartWhenAvailable>true</StartWhenAvailable>\n" ++
  "    <RunOnlyIfNetworkAvailable>false</RunOnlyIfNetworkAvailable>\n" ++
  "    <IdleSettings>\n      <StopOnIdleEnd>false</StopOnIdleEnd>\n" ++
  "      <RestartOnIdle>false</RestartOnIdle>\n    </IdleSettings>\n" ++
  "    <AllowStartOnDemand>true</AllowStartOnDemand>\n" ++
  "    <Enabled>true</Enabled>\n    <Hidden>false</Hidden>\n" ++
  "    <RunOnlyIfIdle>false</RunOnlyIfIdle>\n" ++
  "    <WakeToRun>false</WakeToRun>\n" ++
  "    <ExecutionTimeLimit>PT2H</ExecutionTimeLimit>\n" ++
  "    <Priority>7</Priority>\n  </Settings>\n" ++
  "  <Actions Context=\"Author\">\n    <Exec>\n      <Command>" ++ pythonExe ++
  "</Command>\n      <Arguments>\"" ++ wrapperScript ++
  "\"</Arguments>\n      <WorkingDirectory>" ++ workingDir ++
  "</WorkingDirectory>\n    </Exec>\n  </Actions>\n</Task>"

/-- The `trigger_config` argument of `create_task`: Python is untyped, so the
call site may pass one trigger dict or a list of them. On a list, the
normalization's `'data' in ...` membership test is false (no element equals the
string `'data'`), and `_generate_trigger_xml`'s `trigger_config.get('type')`
raises `AttributeError`. -/
inductive TriggerArg where
  | dict (raw : RawTrigger)
  | pylist (raws : List RawTrigger)
  deriving DecidableEq, Repr

/-- The serialized trigger section `create_task` would hand to
`_create_task_xml` for its argument, or the exception that is raised instead
(windows_scheduler.py:83-101, 409-419). -/
def triggerArgXml (now : PyDateTime) : TriggerArg → Except PyErr String
  | .dict raw => generateTriggerXml now (normalizeTrigger raw)
  | .pylist _ => .error (.attributeError "'list' object has no attribute 'get'")

/-- The error text `create_task` returns on a non-zero `schtasks` exit:
`result.stderr.strip() or result.stdout.strip()` (windows_scheduler.py:122). -/
def schtasksErrMsg (r : SchtasksResult) : String :=
  if strStrip r.stderr ≠ "" then strStrip r.stderr else strStrip r.stdout

/-- `WindowsTaskScheduler.create_task` (windows_scheduler.py:32-130).
`scriptPathExists` models `script_path.exists()`, `os` the outcome of the
`schtasks /Create` call, `now` the value of `datetime.now()`, and `fs` the
file system. The steps, in source order: check the script exists; write the
wrapper script; build the trigger XML (any exception here, including the
unimported-`timedelta` `NameError` and the list-argument `AttributeError`, is
caught and returned as `(False, str(e))`); write the temp XML; run `schtasks`
(a raised exception leaves the temp file behind, a returned result is followed
by `xml_file.unlink(missing_ok=True)`); return `(True, "")` on exit code 0 and
`(False, error text)` otherwise. -/
def createTask (scriptName scriptPath : String) (scriptPathExists : Bool)
    (trigger : TriggerArg) (os : Except PyErr SchtasksResult)
    (now : PyDateTime) (fs : FS) : (Bool × String) × FS :=
  if ¬scriptPathExists then
    ((false, "Script non trovato: " ++ scriptPath), fs)
  else
    let fs1 := fsAdd (wrapperPathOf scriptName) fs
    match triggerArgXml now trigger with
    | .error e => ((false, e.str), fs1)
    | .ok _ =>
      let fs2 := fsAdd (xmlPathOf scriptName) fs1
      match os with
      | .error e => ((false, e.str), fs2)
      | .ok r =>
        let fs3 := fsRemove (xmlPathOf scriptName) fs2
        if r.returncode = 0 then ((true, ""), fs3)
        else ((false, schtasksErrMsg r), fs3)

/-! ### Counting trigger blocks in a task definition -/

/-- How many positions of `hay` start an occurrence of `needle`. -/
def countSubChars (needle : List Char) : List Char → Nat
  | [] => 0
  | c :: rest =>
    (if startsWithChars needle (c :: rest) then 1 else 0) + countSubChars needle rest

/-- Number of trigger blocks in a piece of task-definition XML: occurrences of
the two block openers `_generate_trigger_xml` can emit. -/
def countBlocks (s : String) : Nat :=
  countSubChars "<TimeTrigger>".data s.data +
    countSubChars "<CalendarTrigger>".data s.data

/-! ### `ScriptExecutorThread` (main_window.py:31-161) -/

/-- One event delivered to the GUI: the three Qt signals the thread emits. -/
inductive Event where
  | output (s : String)
  | error (s : String)
  | finished
  deriving DecidableEq, Repr

/-- Python `s.endswith(suffix)`. -/
def strEndsWith (s suffix : String) : Bool :=
  startsWithChars suffix.data.reverse s.data.reverse

/-- Python `' '.join(params)` and friends. -/
def joinWith (sep : String) : List String → String
  | [] => ""
  | [x] => x
  | x :: xs => x ++ sep ++ joinWith sep xs

/-- The interpreter dispatch of the non-elevated path
(main_window.py:87-97): `.ps1` → powershell, `.bat`/`.cmd` → the script
itself, `.py` → `python -u`, anything else → unsupported (`none`). -/
def selectCommand (scriptPath : String) (params : List String) :
    Option (List String) :=
  if strEndsWith scriptPath ".ps1" then
    some (["powershell", "-ExecutionPolicy", "Bypass", "-NoProfile", "-File",
      scriptPath] ++ params)
  else if strEndsWith scriptPath ".bat" || strEndsWith scriptPath ".cmd" then
    some (scriptPath :: params)
  else if strEndsWith scriptPath ".py" then
    some (["python", "-u", scriptPath] ++ params)
  else
    none

/-- The interpreter dispatch of the elevated path (main_window.py:52-64):
the `(exe, params)` pair handed to `ShellExecuteW`, or `none` when the
extension is unsupported. -/
def selectElevated (scriptPath : String) (params : List String) :
    Option (String × String) :=
  if strEndsWith scriptPath ".ps1" then
    some ("powershell.exe",
      "-ExecutionPolicy Bypass -NoProfile -File \"" ++ scriptPath ++ "\" " ++
        joinWith " " params)
  else if strEndsWith scriptPath ".bat" || strEndsWith scriptPath ".cmd" then
    some (scriptPath, joinWith " " params)
  else if strEndsWith scriptPath ".py" then
    some ("python.exe", "-u \"" ++ scriptPath ++ "\" " ++ joinWith " " params)
  else
    none

/-- The child process as the streaming loop observes it: the successive
non-empty `readline()` results, and what `communicate()` still returns after
the loop ends. -/
structure ChildProcess where
  lines : List String
  remainingOut : String
  remainingErr : String
  deriving DecidableEq, Repr

/-- Whether `_stop_requested` is seen `True` at loop iteration `i`: `stopAt`
is the first iteration at which the flag, set by `stop()`, is observed. -/
def observedStop (stopAt : Option Nat) (i : Nat) : Bool :=
  match stopAt with
  | none => false
  | some k => decide (k ≤ i)

/-- The message of the stop branch (main_window.py:118). -/
def interruzioneMsg : String := "\n[INTERRUZIONE] Esecuzione interrotta dall'utente"

/-- The streaming loop of `ScriptExecutorThread.run` (main_window.py:111-127):
each iteration first polls the stop flag (terminate/kill the child and emit the
interruption error chunk, then break), otherwise reads one line (emit it), and
breaks when no line is available and the process has exited. -/
def streamLoop (stopAt : Option Nat) : Nat → List String → List Event
  | i, [] => if observedStop stopAt i then [.error interruzioneMsg] else []
  | i, l :: rest =>
    if observedStop stopAt i then [.error interruzioneMsg]
    else .output l :: streamLoop stopAt (i + 1) rest

/-- What one `run()` invocation produces: the emitted events in order, and
whether a child process was spawned. -/
structure RunResult where
  events : List Event
  spawned : Bool
  deriving DecidableEq, Repr

/-- `ScriptExecutorThread.run` (main_window.py:46-147) on Windows.
`shellExecCode` is the `ShellExecuteW` return value of the elevated path
(`> 32` = launched). The non-elevated supported path resolves the command,
spawns, streams lines until exhaustion or a stop request, drains
`communicate()` leftovers, and the `finally` block emits the bare `finished`
signal last. The unsupported-extension branches (main_window.py:63, 96) and
the elevated branch (line 73) emit `finished_signal` and then `return`
*inside the `try`*, and Python runs the `finally` block (lines 145-147) even
after `return` — so those paths emit the `finished` signal twice: once at the
early return, once from `finally`. Nothing is spawned on the unsupported
branches. -/
def threadRun (scriptPath : String) (params : List String) (runAsAdmin : Bool)
    (shellExecCode : Nat) (proc : ChildProcess) (stopAt : Option Nat) :
    RunResult :=
  if runAsAdmin then
    match selectElevated scriptPath params with
    | none =>
      ⟨[.error ("Tipo di script non supportato: " ++ scriptPath), .finished,
        .finished], false⟩
    | some _ =>
      if shellExecCode ≤ 32 then
        ⟨[.error ("Impossibile eseguire come amministratore. Codice errore: " ++
            natToStr shellExecCode), .finished, .finished], false⟩
      else
        ⟨[.output "[INFO] Script avviato con privilegi amministrativi",
          .output "[AVVISO] L'output real-time non è disponibile per script eseguiti come amministratore",
          .finished, .finished], true⟩
  else
    match selectCommand scriptPath params with
    | none =>
      ⟨[.error ("Tipo di script non supportato: " ++ scriptPath), .finished,
        .finished], false⟩
    | some _ =>
      let loopEvents := streamLoop stopAt 0 proc.lines
      let drained :=
        (if proc.remainingOut ≠ "" then [Event.output proc.remainingOut] else []) ++
          (if proc.remainingErr ≠ "" then [Event.error proc.remainingErr] else [])
      ⟨loopEvents ++ drained ++ [.finished], true⟩

/-- How `MainWindow` renders one received event in the output pane:
`append_output` shows the text (main_window.py:1108), `append_error` puts
`[ERRORE] ` in front (main_window.py:1114-1116), and `on_execution_finished`
appends the completion message unconditionally (main_window.py:1121-1123). -/
def guiText : Event → String
  | .output s => s
  | .error s => "[ERRORE] " ++ s
  | .finished => "\n[OK] Esecuzione completata"

/-- The lines the output pane gains over one execution, in delivery order. -/
def guiMessages (events : List Event) : List String :=
  events.map guiText

/-! ### The schedule dialog and `configure_schedule` (main_window.py) -/

/-- A trigger as the dialog builds it (`get_current_form_trigger`,
main_window.py:4649-4705): the `data` payloads of the three variants. -/
inductive Trigger where
  | once (datetimeStr : String)
  | daily (timeStr : String) (interval : Nat)
  | weekly (timeStr : String) (days : List String)
  deriving DecidableEq, Repr

/-- A schedule configuration as saved by the dialog
(`ScheduleDialog.accept`, main_window.py:4800-4804). -/
structure ScheduleConfig where
  enabled : Bool
  taskName : String
  triggers : List Trigger
  deriving DecidableEq, Repr

/-- What the user does to leave the configured dialog: confirm (answering the
zero-trigger prompt if it comes up), press "delete all" (answering its
confirmation), or cancel. -/
inductive DialogChoice where
  | pressOk (confirmDelete : Bool)
  | pressDeleteAll (confirmDelete : Bool)
  | cancel
  deriving DecidableEq, Repr

/-- How the dialog terminates. -/
inductive DialogOutcome where
  | stillOpen
  | acceptedDeleteAll
  | acceptedConfig (taskName : String) (triggers : List Trigger)
  deriving DecidableEq, Repr

/-- `ScheduleDialog.accept` (main_window.py:4731-4806) and
`ScheduleDialog.delete_all_triggers` (main_window.py:4602-4634).
`accept` rejects a blank task name (dialog stays open); with zero triggers it
asks whether to delete the whole schedule, accepting with `delete_all` on Yes
and staying open on No; otherwise it accepts an enabled config carrying the
trigger list. `delete_all_triggers` accepts with `delete_all` only after its
own confirmation. -/
def scheduleDialogOutcome (taskName : String) (triggers : List Trigger) :
    DialogChoice → DialogOutcome
  | .cancel => .stillOpen
  | .pressDeleteAll confirm =>
    if confirm then .acceptedDeleteAll else .stillOpen
  | .pressOk confirm =>
    if strStrip taskName = "" then .stillOpen
    else if triggers.isEmpty then
      if confirm then .acceptedDeleteAll else .stillOpen
    else .acceptedConfig (strStrip taskName) triggers

/-- What `configure_schedule` does to the persisted schedule store. -/
inductive StoreAction where
  | keep
  | save (scriptName : String) (cfg : ScheduleConfig)
  | del (scriptName : String)
  deriving DecidableEq, Repr

/-- `MainWindow.configure_schedule` (main_window.py:1424-1450) after the
dialog closes: a `delete_all` result deletes the stored configuration, an
enabled config is saved, anything else leaves the store alone. -/
def configureSchedule (scriptName taskName : String)
    (triggers : List Trigger) (choice : DialogChoice) : StoreAction :=
  match scheduleDialogOutcome taskName triggers choice with
  | .stillOpen => .keep
  | .acceptedDeleteAll => .del scriptName
  | .acceptedConfig tn trs =>
    let cfg : ScheduleConfig := ⟨true, tn, trs⟩
    if cfg.enabled then .save scriptName cfg else .keep

/-! ### The generated wrapper's runtime behavior
(`_create_wrapper_script`, windows_scheduler.py:225-313) -/

/-- The last path component (after the final `/` or `\`). -/
def lastComponent (p : String) : List Char :=
  (p.data.reverse.takeWhile fun c => c ≠ '/' ∧ c ≠ '\\').reverse

/-- `pathlib.Path(p).suffix`: the final `.`-led extension of the last
component, empty when the dot is missing, leads the name, or ends it. -/
def pathSuffix (p : String) : String :=
  let revName := lastComponent p |>.reverse
  let after := revName.takeWhile fun c => c ≠ '.'
  if after.length = revName.length then ""
  else if after.length = 0 then ""
  else if after.length = revName.length - 1 then ""
  else ⟨'.' :: after.reverse⟩

/-- The command dispatch inside the generated wrapper
(windows_scheduler.py:250-258): `.ps1` → powershell, `.py` → the generating
interpreter, `.bat`/`.cmd` → `cmd /c`, and any other suffix falls through to
invoking the target path directly. -/
def wrapperCommand (scriptPath sysExecutable : String) : List String :=
  let suffix := strLower (pathSuffix scriptPath)
  if suffix = ".ps1" then
    ["powershell", "-ExecutionPolicy", "Bypass", "-File", scriptPath]
  else if suffix = ".py" then
    [sysExecutable, scriptPath]
  else if suffix = ".bat" || suffix = ".cmd" then
    ["cmd", "/c", scriptPath]
  else
    [scriptPath]

/-- How the wrapper's `subprocess.run` call turned out. -/
inductive SpawnOutcome where
  | completed (returncode : Nat)
  | timedOut
  | raised (e : PyErr)
  deriving DecidableEq, Repr

/-- The exit code of the generated wrapper (windows_scheduler.py:299-309):
the child's return code on completion, `1` on the one-hour timeout or on any
exception (such as a failed spawn). -/
def wrapperExitCode (spawn : SpawnOutcome) : Nat :=
  match spawn with
  | .completed rc => rc
  | .timedOut => 1
  | .raised _ => 1

/-- The error line the wrapper appends to its log on an abnormal end
(windows_scheduler.py:301-309); none on normal completion. -/
def wrapperErrorLine (spawn : SpawnOutcome) : Option String :=
  match spawn with
  | .completed _ => none
  | .timedOut => some "\n❌ ERRORE: Timeout (1 ora)\n"
  | .raised e => some ("\n❌ ERRORE: " ++ e.str ++ "\n")

/-! ### The schedule store (`save_schedule_config` / `load_schedule_config`,
main_window.py:1499-1521)

`save` writes `json.dump(config, f, indent=2, ensure_ascii=False)` to the
per-script JSON file; `load` reads it back with `json.load`. The dump format
is rendered exactly (indentation included) at the character level;
the parser is the inverse of that grammar — `json.load` accepts every
document `json.dump` emits and returns precisely this parse on it. -/

/-- The `indent=2` prefix at nesting level `k`. -/
def indChars (k : Nat) : List Char :=
  List.replicate (2 * k) ' '

/-- Lowercase hexadecimal digit character. -/
def hexDigitChar (d : Nat) : Char :=
  if d < 10 then digitChar d else Char.ofNat (87 + d)

/-- How `json.dump` escapes one character inside a string literal
(`ensure_ascii=False`): quote and backslash get a backslash, the five named
control characters their short escapes, other control characters a `\u00xx`
escape, everything else passes through. -/
def escapeChar (c : Char) : List Char :=
  if c = '"' then ['\\', '"']
  else if c = '\\' then ['\\', '\\']
  else if c = '\n' then ['\\', 'n']
  else if c = '\t' then ['\\', 't']
  else if c = '\r' then ['\\', 'r']
  else if c.toNat = 8 then ['\\', 'b']
  else if c.toNat = 12 then ['\\', 'f']
  else if c.toNat < 32 then
    ['\\', 'u', '0', '0', hexDigitChar (c.toNat / 16), hexDigitChar (c.toNat % 16)]
  else [c]

/-- Escape a whole string body. -/
def escapeChars : List Char → List Char
  | [] => []
  | c :: cs => escapeChar c ++ escapeChars cs

/-- A rendered JSON string literal. -/
def jstrChars (s : String) : List Char :=
  '"' :: (escapeChars s.data ++ ['"'])

/-- The days array of a weekly trigger at nesting level `k`, items folded
together with the closing bracket. -/
def renderDaysItems (k : Nat) : List String → List Char
  | [] => []
  | [d] => indChars (k + 1) ++ jstrChars d ++ '\n' :: (indChars k ++ [']'])
  | d :: rest => indChars (k + 1) ++ jstrChars d ++ ',' :: '\n' :: renderDaysItems k rest

/-- A rendered JSON array of day strings at nesting level `k`. -/
def renderDaysChars (k : Nat) (ds : List String) : List Char :=
  match ds with
  | [] => ['[', ']']
  | _ => '[' :: '\n' :: renderDaysItems k ds

/-- The skeleton of a trigger object up to the `type` value, at nesting
level `k`. -/
def trigHead (k : Nat) : List Char :=
  ("\x7b\n").data ++ indChars (k + 1) ++ ("\"type\": ").data

/-- The skeleton between the `type` value and the first `data` field. -/
def trigData (k : Nat) : List Char :=
  (",\n").data ++ indChars (k + 1) ++ ("\"data\": \x7b\n").data

/-- The closers of the `data` object and the trigger object. -/
def trigClose (k : Nat) : List Char :=
  '\n' :: (indChars (k + 1) ++ ("\x7d\n").data ++ indChars k ++ ['}'])

/-- A first `"key": ` field marker inside the `data` object. -/
def keySeg (k : Nat) (key : String) : List Char :=
  indChars (k + 2) ++ ("\"" ++ key ++ "\": ").data

/-- A subsequent `, "key": ` field marker inside the `data` object. -/
def commaKeySeg (k : Nat) (key : String) : List Char :=
  (",\n").data ++ indChars (k + 2) ++ ("\"" ++ key ++ "\": ").data

/-- One trigger dict `{'type': ..., 'data': {...}}` as `json.dump(indent=2)`
lays it out at nesting level `k`. -/
def renderTriggerChars (k : Nat) : Trigger → List Char
  | .once dt =>
    trigHead k ++ (jstrChars "once" ++ (trigData k ++
      (keySeg k "datetime" ++ (jstrChars dt ++ trigClose k))))
  | .daily t i =>
    trigHead k ++ (jstrChars "daily" ++ (trigData k ++
      (keySeg k "time" ++ (jstrChars t ++ (commaKeySeg k "interval" ++
        (natChars i ++ trigClose k))))))
  | .weekly t ds =>
    trigHead k ++ (jstrChars "weekly" ++ (trigData k ++
      (keySeg k "time" ++ (jstrChars t ++ (commaKeySeg k "days" ++
        (renderDaysChars (k + 2) ds ++ trigClose k))))))

/-- The triggers array (always at nesting level 1), items folded together with
the closing bracket. -/
def renderTriggersItems : List Trigger → List Char
  | [] => []
  | [t] => indChars 2 ++ renderTriggerChars 2 t ++ '\n' :: (indChars 1 ++ [']'])
  | t :: rest => indChars 2 ++ renderTriggerChars 2 t ++ ',' :: '\n' :: renderTriggersItems rest

/-- The rendered triggers array. -/
def renderTriggersChars (ts : List Trigger) : List Char :=
  match ts with
  | [] => ['[', ']']
  | _ => '[' :: '\n' :: renderTriggersItems ts

/-- The document skeleton up to the `enabled` value. -/
def cfgHead : List Char :=
  ("\x7b\n").data ++ indChars 1 ++ ("\"enabled\": ").data

/-- The skeleton between the `enabled` value and the `task_name` value. -/
def cfgTaskNameSeg : List Char :=
  (",\n").data ++ indChars 1 ++ ("\"task_name\": ").data

/-- The skeleton between the `task_name` value and the triggers array. -/
def cfgTriggersSeg : List Char :=
  (",\n").data ++ indChars 1 ++ ("\"triggers\": ").data

/-- The document closer. -/
def cfgClose : List Char :=
  '\n' :: ['}']

/-- The whole config document, exactly as `json.dump(config, f, indent=2,
ensure_ascii=False)` writes it for the dict built in `ScheduleDialog.accept`
(keys in insertion order: `enabled`, `task_name`, `triggers`). -/
def renderConfigChars (cfg : ScheduleConfig) : List Char :=
  cfgHead ++ ((if cfg.enabled then ("true").data else ("false").data) ++
    (cfgTaskNameSeg ++ (jstrChars cfg.taskName ++
      (cfgTriggersSeg ++ (renderTriggersChars cfg.triggers ++ cfgClose)))))

/-- Consume an exact literal from the front of the input. -/
def expectChars (lit l : List Char) : Option (List Char) :=
  if startsWithChars lit l then some (l.drop lit.length) else none

/-- Hexadecimal digit value. -/
def hexVal (c : Char) : Option Nat :=
  if c.isDigit then some (c.toNat - 48)
  else if 97 ≤ c.toNat ∧ c.toNat ≤ 102 then some (c.toNat - 87)
  else if 65 ≤ c.toNat ∧ c.toNat ≤ 70 then some (c.toNat - 55)
  else none

/-- The character a short escape stands for. -/
def unescapeChar (d : Char) : Option Char :=
  if d = '"' then some '"'
  else if d = '\\' then some '\\'
  else if d = '/' then some '/'
  else if d = 'n' then some '\n'
  else if d = 't' then some '\t'
  else if d = 'r' then some '\r'
  else if d = 'b' then some (Char.ofNat 8)
  else if d = 'f' then some (Char.ofNat 12)
  else none

/-- Parse the body of a JSON string literal after its opening quote, up to and
over the closing quote, undoing the escapes. -/
def parseStrLitAux : List Char → Option (List Char × List Char)
  | [] => none
  | c :: cs =>
    if c = '"' then some ([], cs)
    else if c = '\\' then
      match cs with
      | [] => none
      | d :: cs' =>
        if d = 'u' then
          match cs' with
          | h1 :: h2 :: h3 :: h4 :: rest => do
            let v1 ← hexVal h1
            let v2 ← hexVal h2
            let v3 ← hexVal h3
            let v4 ← hexVal h4
            let (s, r) ← parseStrLitAux rest
            pure (Char.ofNat (((v1 * 16 + v2) * 16 + v3) * 16 + v4) :: s, r)
          | _ => none
        else do
          let e ← unescapeChar d
          let (s, r) ← parseStrLitAux cs'
          pure (e :: s, r)
    else do
      let (s, r) ← parseStrLitAux cs
      pure (c :: s, r)

/-- Parse a JSON string literal. -/
def parseJStr (l : List Char) : Option (String × List Char) :=
  match l with
  | '"' :: cs => (parseStrLitAux cs).map fun p => (⟨p.1⟩, p.2)
  | _ => none

/-- Split the maximal leading run of decimal digits off the input. -/
def takeDigits : List Char → List Char × List Char
  | [] => ([], [])
  | c :: cs =>
    if c.isDigit then
      let (d, r) := takeDigits cs
      (c :: d, r)
    else
      ([], c :: cs)

/-- Parse a JSON non-negative integer literal. -/
def parseNatLit (l : List Char) : Option (Nat × List Char) :=
  let (ds, r) := takeDigits l
  if ds.isEmpty then none else some (charsVal ds, r)

/-- Parse `true` or `false`. -/
def parseBoolLit (l : List Char) : Option (Bool × List Char) :=
  match expectChars ("true").data l with
  | some r => some (true, r)
  | none =>
    match expectChars ("false").data l with
    | some r => some (false, r)
    | none => none

/-- Parse the items of a non-empty days array (after `[` and its newline),
consuming the closing bracket. `fuel` bounds the recursion. -/
def parseDaysItems (k : Nat) : Nat → List Char → Option (List String × List Char)
  | 0, _ => none
  | fuel + 1, l => do
    let r ← expectChars (indChars (k + 1)) l
    let (d, r) ← parseJStr r
    match r with
    | ',' :: '\n' :: r2 => do
      let (ds, r3) ← parseDaysItems k fuel r2
      pure (d :: ds, r3)
    | '\n' :: r2 => do
      let r3 ← expectChars (indChars k ++ [']']) r2
      pure ([d], r3)
    | _ => none

/-- Parse a days array at nesting level `k`. -/
def parseDays (k : Nat) (l : List Char) : Option (List String × List Char) :=
  match l with
  | '[' :: ']' :: r => some ([], r)
  | '[' :: '\n' :: r => parseDaysItems k (r.length + 1) r
  | _ => none

/-- Parse one trigger object at nesting level `k`: the fixed skeleton around
the `type` string, then the `data` fields of the named variant. -/
def parseTrigger (k : Nat) (l : List Char) : Option (Trigger × List Char) := do
  let r ← expectChars (trigHead k) l
  let (ty, r) ← parseJStr r
  let r ← expectChars (trigData k) r
  if ty = "once" then do
    let r ← expectChars (keySeg k "datetime") r
    let (dt, r) ← parseJStr r
    let r ← expectChars (trigClose k) r
    pure (Trigger.once dt, r)
  else if ty = "daily" then do
    let r ← expectChars (keySeg k "time") r
    let (t, r) ← parseJStr r
    let r ← expectChars (commaKeySeg k "interval") r
    let (i, r) ← parseNatLit r
    let r ← expectChars (trigClose k) r
    pure (Trigger.daily t i, r)
  else if ty = "weekly" then do
    let r ← expectChars (keySeg k "time") r
    let (t, r) ← parseJStr r
    let r ← expectChars (commaKeySeg k "days") r
    let (ds, r) ← parseDays (k + 2) r
    let r ← expectChars (trigClose k) r
    pure (Trigger.weekly t ds, r)
  else none

/-- Parse the items of a non-empty triggers array, consuming the closing
bracket. `fuel` bounds the recursion. -/
def parseTriggersItems : Nat → List Char → Option (List Trigger × List Char)
  | 0, _ => none
  | fuel + 1, l => do
    let r ← expectChars (indChars 2) l
    let (t, r) ← parseTrigger 2 r
    match r with
    | ',' :: '\n' :: r2 => do
      let (ts, r3) ← parseTriggersItems fuel r2
      pure (t :: ts, r3)
    | '\n' :: r2 => do
      let r3 ← expectChars (indChars 1 ++ [']']) r2
      pure ([t], r3)
    | _ => none

/-- Parse the triggers array. -/
def parseTriggers (l : List Char) : Option (List Trigger × List Char) :=
  match l with
  | '[' :: ']' :: r => some ([], r)
  | '[' :: '\n' :: r => parseTriggersItems (r.length + 1) r
  | _ => none

/-- Parse a whole config document. -/
def parseConfigChars (l : List Char) : Option (ScheduleConfig × List Char) := do
  let r ← expectChars cfgHead l
  let (b, r) ← parseBoolLit r
  let r ← expectChars cfgTaskNameSeg r
  let (tn, r) ← parseJStr r
  let r ← expectChars cfgTriggersSeg r
  let (ts, r) ← parseTriggers r
  let r ← expectChars cfgClose r
  pure (⟨b, tn, ts⟩, r)

/-- `json.load` on a schedule file: the parse must consume the whole document. -/
def parseConfig (s : String) : Option ScheduleConfig :=
  match parseConfigChars s.data with
  | some (cfg, []) => some cfg
  | _ => none

/-- The schedule files on disk: path to text content, later writes first. -/
abbrev ScheduleStore := List (String × String)

/-- Write (create or overwrite) the file at `k`. -/
def storePut (k v : String) (st : ScheduleStore) : ScheduleStore :=
  (k, v) :: st

/-- Read the file at `k`, if present. -/
def storeGet (k : String) (st : ScheduleStore) : Option String :=
  (st.find? fun p => p.1 = k).map Prod.snd

/-- `MainWindow.save_schedule_config` (main_window.py:1499-1508): dump the
config as JSON into `<schedules>/<safe_name>.json`. -/
def saveScheduleConfig (scriptName : String) (cfg : ScheduleConfig)
    (st : ScheduleStore) : ScheduleStore :=
  storePut (scheduleFileName scriptName) ⟨renderConfigChars cfg⟩ st

/-- `MainWindow.load_schedule_config` (main_window.py:1510-1521): read and
parse `<schedules>/<safe_name>.json`, `none` when the file is missing or does
not parse. -/
def loadScheduleConfig (scriptName : String) (st : ScheduleStore) :
    Option ScheduleConfig :=
  (storeGet (scheduleFileName scriptName) st).bind parseConfig

/-! ## Helper lemmas -/

theorem startsWithChars_self_append (l r : List Char) :
    startsWithChars l (l ++ r) = true := by
  induction l with
  | nil => rfl
  | cons a as ih => simp [startsWithChars, ih]

theorem startsWithChars_iff (lit l : List Char) :
    startsWithChars lit l = true ↔ ∃ r, l = lit ++ r := by
  induction lit generalizing l with
  | nil => simp [startsWithChars]
  | cons a as ih =>
    cases l with
    | nil => simp [startsWithChars]
    | cons b bs =>
      simp only [startsWithChars, Bool.and_eq_true, beq_iff_eq, ih,
        List.cons_append, List.cons.injEq]
      constructor
      · rintro ⟨hab, r, hr⟩
        exact ⟨r, hab.symm, hr⟩
      · rintro ⟨r, hab, hr⟩
        exact ⟨hab.symm, r, hr⟩

theorem expectChars_self_append (lit r : List Char) :
    expectChars lit (lit ++ r) = some r := by
  simp [expectChars, startsWithChars_self_append, List.drop_left]

theorem expectChars_eq_some {lit l r : List Char} :
    expectChars lit l = some r ↔ l = lit ++ r := by
  constructor
  · intro h
    by_cases hs : startsWithChars lit l = true
    · obtain ⟨r', hr⟩ := (startsWithChars_iff lit l).mp hs
      subst hr
      rw [expectChars_self_append] at h
      cases h
      rfl
    · simp [expectChars, hs] at h
  · intro h
    subst h
    exact expectChars_self_append lit r

theorem not_mem_fsRemove_self (p : String) (fs : FS) : p ∉ fsRemove p fs := by
  simp [fsRemove]

theorem mem_fsAdd_self (p : String) (fs : FS) : p ∈ fsAdd p fs := by
  unfold fsAdd
  by_cases h : p ∈ fs <;> simp [h]

theorem replaceChar_eq_self {s : String} {c r : Char}
    (h : ∀ ch ∈ s.data, ch ≠ c) : replaceChar s c r = s := by
  have hmap : s.data.map (fun x => if x = c then r else x) = s.data := by
    rw [List.map_congr_left (g := id) fun a ha => by simp [h a ha]]
    exact List.map_id s.data
  show (⟨s.data.map _⟩ : String) = s
  rw [hmap]

theorem mem_replaceChar {ch : Char} {s : String} {c r : Char}
    (h : ch ∈ (replaceChar s c r).data) : ch = r ∨ ch ∈ s.data := by
  unfold replaceChar at h
  simp only [List.mem_map] at h
  obtain ⟨x, hx, hfx⟩ := h
  by_cases hc : x = c
  · left
    simp [hc] at hfx
    exact hfx.symm
  · right
    simp [hc] at hfx
    exact hfx ▸ hx

/-! ## Claim C4 — the safe-name key across the three components -/

/-- C4, counterexample: for the script name `a/b` the schedule store and the
wrapper generator both derive the key `a_b`, but the native task name derived
by `create_task`/`delete_task` replaces only spaces and keeps the slash, so
the task is not addressable through the shared safe-name key. -/
theorem C4_counterexample :
    storeSafeName "a/b" = "a_b" ∧ wrapperSafeName "a/b" = "a_b" ∧
      taskNameOf "a/b" = "SYS_Toolset_a/b" ∧
      taskNameOf "a/b" ≠ TASK_PREFIX ++ storeSafeName "a/b" := by
  decide

/-- C4, amended: ScheduleStore and WrapperGenerator always share the same
safe-name key, and the TaskRegistrar task name agrees with
`TASK_PREFIX ++ safe name` exactly when the script name holds no `/` and no
`\` (only spaces are replaced there). -/
theorem C4_safe_name_key (name : String)
    (h : ∀ ch ∈ name.data, ch ≠ '/' ∧ ch ≠ '\\') :
    storeSafeName name = wrapperSafeName name ∧
      taskNameOf name = TASK_PREFIX ++ storeSafeName name := by
  refine ⟨rfl, ?_⟩
  unfold taskNameOf storeSafeName
  have h1 : replaceChar (replaceChar name ' ' '_') '/' '_' =
      replaceChar name ' ' '_' := by
    apply replaceChar_eq_self
    intro ch hch
    rcases mem_replaceChar hch with h' | h'
    · subst h'; decide
    · exact (h ch h').1
  have h2 : replaceChar (replaceChar (replaceChar name ' ' '_') '/' '_') '\\' '_' =
      replaceChar (replaceChar name ' ' '_') '/' '_' := by
    apply replaceChar_eq_self
    intro ch hch
    rcases mem_replaceChar hch with h' | h'
    · subst h'; decide
    · rcases mem_replaceChar h' with h'' | h''
      · subst h''; decide
      · exact (h ch h'').2
  rw [h2, h1]

/-- C4 witness: the amended statement at the concrete name `My Script`. -/
theorem C4_safe_name_key_witness :
    storeSafeName "My Script" = wrapperSafeName "My Script" ∧
      taskNameOf "My Script" = TASK_PREFIX ++ storeSafeName "My Script" :=
  C4_safe_name_key "My Script" (by decide)

/-! ## Claim C5 — idempotent delete and the wrapper side effect -/

/-- C5, counterexample: when `schtasks /Delete` exits non-zero with the
"cannot find the file" message, `delete_task` returns success but the wrapper
artifact is left on disk — the not-found success path skips
`_delete_wrapper_script`. -/
theorem C5_counterexample :
    deleteTask "backup"
        (.ok ⟨1, "", "ERROR: The system cannot find the file specified."⟩)
        [wrapperPathOf "backup"] =
      (true, [wrapperPathOf "backup"]) := by
  decide

/-- C5, amended: `delete_task` returns success exactly on exit code 0 or on a
stderr reporting the task as missing (and failure when the call raises), but
the wrapper artifact is removed only on the exit-code-0 path, not on the
not-found success path. -/
theorem C5_delete_task (name : String) (r : SchtasksResult) (e : PyErr)
    (fs : FS) :
    ((deleteTask name (.ok r) fs).1 = true ↔
      r.returncode = 0 ∨ notFoundStderr r.stderr = true) ∧
    deleteTask name (.error e) fs = (false, fs) ∧
    (wrapperPathOf name ∈ fs →
      (wrapperPathOf name ∉ (deleteTask name (.ok r) fs).2 ↔
        r.returncode = 0)) := by
  unfold deleteTask
  by_cases h0 : r.returncode = 0
  · simp [h0, not_mem_fsRemove_self]
  · by_cases hn : notFoundStderr r.stderr
    · simp [h0, hn]
    · simp [h0, hn]

/-- C5 witness: the amended statement at a concrete successful delete with the
wrapper present beforehand. -/
theorem C5_delete_task_witness :
    wrapperPathOf "backup" ∉
        (deleteTask "backup" (.ok ⟨0, "", ""⟩) [wrapperPathOf "backup"]).2 ↔
      (0 : Nat) = 0 :=
  (C5_delete_task "backup" ⟨0, "", ""⟩ (.osError "x")
    [wrapperPathOf "backup"]).2.2 (by decide)

/-! ## Claim C2 — the once-trigger date fallback -/

/-- C2: evaluation at the failing input. For a `once` trigger whose date
string does not parse, `_generate_trigger_xml`'s fallback evaluates
`timedelta`, which the module never imports, so a `NameError` is raised; it
is caught by `create_task`'s blanket handler, and registration returns
failure with `str(e)` — it does not fall back to "five minutes from now" and
does not proceed. -/
theorem C2_unparsable_date_fails_registration :
    createTask "backup" "C:/scripts/backup.ps1" true
        (.dict (.nested (.once "not-a-date"))) (.ok ⟨0, "", ""⟩)
        ⟨2026, 1, 15, 9, 0, 0⟩ [] =
      ((false, "name 'timedelta' is not defined"),
        [wrapperPathOf "backup"]) := by
  decide

/-! ## Claim C9 — the temp XML after `create_task` -/

/-- C9, counterexample: when the `schtasks` call itself raises (here an
`OSError`), `create_task`'s `except` branch returns without reaching
`xml_file.unlink`, and the temp XML file is still on disk afterwards. -/
theorem C9_counterexample :
    xmlPathOf "backup" ∈
      (createTask "backup" "C:/scripts/backup.ps1" true
        (.dict (.nested (.once "2026-01-15T10:30:00")))
        (.error (.osError "boom")) ⟨2026, 1, 15, 9, 0, 0⟩ []).2 := by
  decide

/-- C9, amended: on every run in which the `schtasks` call returns a result —
success or error text alike — the temp XML no longer exists afterwards; but
when the call raises an exception between writing the file and deleting it,
the file is left behind. -/
theorem C9_temp_xml_cleanup (n p : String) (raw : RawTrigger) (xml : String)
    (r : SchtasksResult) (e : PyErr) (now : PyDateTime) (fs : FS)
    (h : triggerArgXml now (.dict raw) = .ok xml) :
    xmlPathOf n ∉ (createTask n p true (.dict raw) (.ok r) now fs).2 ∧
      xmlPathOf n ∈ (createTask n p true (.dict raw) (.error e) now fs).2 := by
  unfold createTask
  by_cases h0 : r.returncode = 0 <;>
    simp [h, h0, not_mem_fsRemove_self, mem_fsAdd_self]

/-- C9 witness: the amended statement at a concrete valid once trigger. -/
theorem C9_temp_xml_cleanup_witness :
    xmlPathOf "backup" ∉
        (createTask "backup" "C:/scripts/backup.ps1" true
          (.dict (.nested (.once "2026-01-15T10:30:00"))) (.ok ⟨0, "", ""⟩)
          ⟨2026, 1, 15, 9, 0, 0⟩ []).2 ∧
      xmlPathOf "backup" ∈
        (createTask "backup" "C:/scripts/backup.ps1" true
          (.dict (.nested (.once "2026-01-15T10:30:00")))
          (.error (.osError "boom")) ⟨2026, 1, 15, 9, 0, 0⟩ []).2 :=
  C9_temp_xml_cleanup "backup" "C:/scripts/backup.ps1"
    (.nested (.once "2026-01-15T10:30:00"))
    (onceTriggerXml "2026-01-15T10:30:00") ⟨0, "", ""⟩ (.osError "boom")
    ⟨2026, 1, 15, 9, 0, 0⟩ [] (by decide)

/-! ## Claim C1 — one trigger per task definition -/

/-- C1, counterexample: handing `create_task` a list of two triggers (the only
way to pass "more than one trigger" to its single `trigger_config` parameter)
does not produce one task definition with two trigger blocks: the
`.get('type')` lookup on the list raises `AttributeError`, the blanket handler
returns failure, and no task definition is registered at all (only the wrapper
had been written). -/
theorem C1_counterexample :
    createTask "cleanup" "C:/scripts/cleanup.py" true
        (.pylist [.nested (.daily "02:00"), .nested (.weekly "03:00" ["mon", "wed"])])
        (.ok ⟨0, "", ""⟩) ⟨2026, 1, 15, 9, 0, 0⟩ [] =
      ((false, "'list' object has no attribute 'get'"),
        [wrapperPathOf "cleanup"]) := by
  decide

set_option maxRecDepth 100000 in
/-- C1, amended: `create_task` takes a single trigger configuration per call
and its task definition holds the one trigger block generated from that
configuration alone (one `TimeTrigger`/`CalendarTrigger` block for a
once/daily/weekly trigger); a list of triggers always makes registration fail
with the `AttributeError`, so multiple triggers are never emitted as multiple
blocks inside one task definition. -/
theorem C1_single_trigger_per_definition :
    (∀ (n p : String) (raws : List RawTrigger) (os : Except PyErr SchtasksResult)
        (now : PyDateTime) (fs : FS),
      (createTask n p true (.pylist raws) os now fs).1 =
        (false, "'list' object has no attribute 'get'")) ∧
    (triggerArgXml ⟨2026, 1, 15, 9, 0, 0⟩
        (.dict (.nested (.once "2026-01-15T10:30:00")))).map
        (fun xml => countBlocks (taskXmlContent "job" xml "C:/py.exe" "w.py" "C:/wd")) =
      .ok 1 ∧
    (triggerArgXml ⟨2026, 1, 15, 9, 0, 0⟩ (.dict (.nested (.daily "02:00")))).map
        (fun xml => countBlocks (taskXmlContent "job" xml "C:/py.exe" "w.py" "C:/wd")) =
      .ok 1 ∧
    (triggerArgXml ⟨2026, 1, 15, 9, 0, 0⟩
        (.dict (.nested (.weekly "03:00" ["mon", "wed"])))).map
        (fun xml => countBlocks (taskXmlContent "job" xml "C:/py.exe" "w.py" "C:/wd")) =
      .ok 1 := by
  refine ⟨?_, by decide, by decide, by decide⟩
  intro n p raws os now fs
  simp [createTask, triggerArgXml, PyErr.str]

/-! ## Claim C3 — cancellation and the terminal outcome -/

theorem streamLoop_stop_mem (k : Nat) :
    ∀ (lines : List String) (i : Nat), k ≤ i + lines.length →
      Event.error interruzioneMsg ∈ streamLoop (some k) i lines := by
  intro lines
  induction lines with
  | nil =>
    intro i h
    simp only [List.length_nil, Nat.add_zero] at h
    simp [streamLoop, observedStop, h]
  | cons l rest ih =>
    intro i h
    by_cases hk : k ≤ i
    · cases rest' : rest <;> simp [streamLoop, observedStop, hk]
    · have h' : k ≤ (i + 1) + rest.length := by
        simp only [List.length_cons] at h
        omega
      simp only [streamLoop, observedStop, hk, decide_eq_true_eq, if_neg hk]
      exact List.mem_cons_of_mem _ (ih (i + 1) h')

/-- C3, counterexample: a run cancelled mid-stream and an identical run left
to finish successfully deliver the same terminal outcome — the bare
`finished` signal, rendered by `on_execution_finished` as the completion
message — so the terminal outcome of a cancelled run is not a distinguishable
`Cancelled`, and the caller's pane ends with the success text either way. -/
theorem C3_counterexample :
    (threadRun "a.py" [] false 33 ⟨["x", "y"], "", ""⟩ (some 0)).events.getLast? =
        some .finished ∧
      (threadRun "a.py" [] false 33 ⟨["x", "y"], "", ""⟩ none).events.getLast? =
        some .finished ∧
      Event.error interruzioneMsg ∈
        (threadRun "a.py" [] false 33 ⟨["x", "y"], "", ""⟩ (some 0)).events ∧
      (guiMessages (threadRun "a.py" [] false 33 ⟨["x", "y"], "", ""⟩
          (some 0)).events).getLast? = some "\n[OK] Esecuzione completata" ∧
      (guiMessages (threadRun "a.py" [] false 33 ⟨["x", "y"], "", ""⟩
          none).events).getLast? = some "\n[OK] Esecuzione completata" := by
  decide

/-- C3, amended: when a stop is requested while the child is still streaming,
the thread emits the `[INTERRUZIONE]` chunk on the error channel before
terminating; but the terminal event is the status-less `finished` signal, and
the window handler renders it as the unconditional `[OK] Esecuzione
completata` — cancellation is visible only in the mid-stream error chunk,
not in the terminal outcome. -/
theorem C3_cancellation_signal (path : String) (params cmd : List String)
    (proc : ChildProcess) (k : Nat)
    (hc : selectCommand path params = some cmd) (hk : k ≤ proc.lines.length) :
    Event.error interruzioneMsg ∈
        (threadRun path params false 33 proc (some k)).events ∧
      (threadRun path params false 33 proc (some k)).events.getLast? =
        some .finished ∧
      (guiMessages (threadRun path params false 33 proc (some k)).events).getLast? =
        some "\n[OK] Esecuzione completata" := by
  unfold threadRun
  simp only [hc, Bool.false_eq_true, if_false]
  refine ⟨?_, ?_, ?_⟩
  · exact List.mem_append_left _
      (List.mem_append_left _ (streamLoop_stop_mem k proc.lines 0 (by omega)))
  · rw [← List.append_assoc]
    exact List.getLast?_concat _
  · show ((_ ++ _ ++ [Event.finished]).map guiText).getLast? = _
    rw [← List.append_assoc, List.map_append]
    exact List.getLast?_concat _

/-- C3 witness: the amended statement at a concrete cancelled run. -/
theorem C3_cancellation_signal_witness :
    Event.error interruzioneMsg ∈
        (threadRun "a.py" [] false 33 ⟨["x", "y"], "", ""⟩ (some 1)).events ∧
      (threadRun "a.py" [] false 33 ⟨["x", "y"], "", ""⟩ (some 1)).events.getLast? =
        some .finished ∧
      (guiMessages (threadRun "a.py" [] false 33 ⟨["x", "y"], "", ""⟩
          (some 1)).events).getLast? = some "\n[OK] Esecuzione completata" :=
  C3_cancellation_signal "a.py" [] ["python", "-u", "a.py"] ⟨["x", "y"], "", ""⟩ 1
    (by decide) (by decide)

/-! ## Claim C7 — interpreter dispatch and the unsupported-extension outcome -/

/-- C7, counterexample: on an unsupported extension the run does not emit
exactly a terminal outcome — the early `return` at main_window.py:96-97 emits
`finished_signal` once and the `finally` block (lines 145-147) emits it a
second time, so the caller receives the unsupported-type error chunk followed
by two `finished` signals (and the window appends the completion message
twice); the same happens on the elevated path. No process is spawned. -/
theorem C7_counterexample :
    (threadRun "run.xyz" [] false 0 ⟨[], "", ""⟩ none).events =
        [.error ("Tipo di script non supportato: " ++ "run.xyz"), .finished,
          .finished] ∧
      (threadRun "run.xyz" [] false 0 ⟨[], "", ""⟩ none).events.count
          Event.finished = 2 ∧
      (threadRun "run.xyz" [] false 0 ⟨[], "", ""⟩ none).spawned = false ∧
      (threadRun "run.xyz" [] true 40 ⟨[], "", ""⟩ none).events.count
          Event.finished = 2 := by
  decide

/-- C7, amended: for an unsupported extension (on both the normal and the
elevated path) `run` emits the unsupported-type error chunk followed by the
terminal `finished` signal twice — once at the early return and once from the
`finally` block — and spawns nothing; an extension is unsupported precisely
when the path ends in none of `.ps1`, `.bat`, `.cmd`, `.py`; and each
supported extension deterministically selects its documented interpreter
command. -/
theorem C7_dispatch (p : String) (params : List String) (code : Nat)
    (proc : ChildProcess) (stopAt : Option Nat) :
    (selectCommand p params = none →
      threadRun p params false code proc stopAt =
        ⟨[.error ("Tipo di script non supportato: " ++ p), .finished,
          .finished], false⟩) ∧
    (selectElevated p params = none →
      threadRun p params true code proc stopAt =
        ⟨[.error ("Tipo di script non supportato: " ++ p), .finished,
          .finished], false⟩) ∧
    (selectCommand p params = none ↔
      strEndsWith p ".ps1" = false ∧ strEndsWith p ".bat" = false ∧
        strEndsWith p ".cmd" = false ∧ strEndsWith p ".py" = false) ∧
    (strEndsWith p ".ps1" = true →
      selectCommand p params =
        some (["powershell", "-ExecutionPolicy", "Bypass", "-NoProfile",
          "-File", p] ++ params)) ∧
    (strEndsWith p ".ps1" = false →
      strEndsWith p ".bat" = true ∨ strEndsWith p ".cmd" = true →
      selectCommand p params = some (p :: params)) ∧
    (strEndsWith p ".ps1" = false → strEndsWith p ".bat" = false →
      strEndsWith p ".cmd" = false → strEndsWith p ".py" = true →
      selectCommand p params = some (["python", "-u", p] ++ params)) := by
  by_cases h1 : strEndsWith p ".ps1" <;>
    by_cases h2 : strEndsWith p ".bat" <;>
    by_cases h3 : strEndsWith p ".cmd" <;>
    by_cases h4 : strEndsWith p ".py" <;>
    simp [threadRun, selectCommand, selectElevated, h1, h2, h3, h4]

/-- C7 witness: the dispatch statement at one path of each kind. -/
theorem C7_dispatch_witness :
    threadRun "run.xyz" [] false 0 ⟨[], "", ""⟩ none =
        ⟨[.error ("Tipo di script non supportato: " ++ "run.xyz"), .finished,
          .finished], false⟩ ∧
      selectCommand "a.ps1" ["1"] =
        some (["powershell", "-ExecutionPolicy", "Bypass", "-NoProfile",
          "-File", "a.ps1"] ++ ["1"]) ∧
      selectCommand "b.bat" [] = some ("b.bat" :: []) ∧
      selectCommand "c.py" [] = some (["python", "-u", "c.py"] ++ []) :=
  ⟨(C7_dispatch "run.xyz" [] 0 ⟨[], "", ""⟩ none).1 (by decide),
    (C7_dispatch "a.ps1" ["1"] 0 ⟨[], "", ""⟩ none).2.2.2.1 (by decide),
    (C7_dispatch "b.bat" [] 0 ⟨[], "", ""⟩ none).2.2.2.2.1 (by decide)
      (Or.inl (by decide)),
    (C7_dispatch "c.py" [] 0 ⟨[], "", ""⟩ none).2.2.2.2.2 (by decide)
      (by decide) (by decide) (by decide)⟩

/-! ## Claim C8 — zero triggers are never stored as an enabled config -/

/-- C8: confirming the dialog never stores an empty-but-enabled config — a
save action always carries the non-empty trigger list and `enabled=True`,
with zero triggers the accept path is either redirected to a delete (user
confirms) or rejected (dialog stays open), and a delete only happens from the
confirmed delete-all button or that zero-trigger redirect. -/
theorem C8_zero_triggers_never_saved (scriptName taskName : String)
    (triggers : List Trigger) (choice : DialogChoice) :
    (∀ n cfg, configureSchedule scriptName taskName triggers choice = .save n cfg →
      cfg.enabled = true ∧ cfg.triggers = triggers ∧ triggers ≠ []) ∧
    (∀ n, configureSchedule scriptName taskName triggers choice = .del n →
      choice = .pressDeleteAll true ∨ (triggers = [] ∧ choice = .pressOk true)) ∧
    (triggers = [] → ∀ n cfg,
      configureSchedule scriptName taskName triggers choice ≠ .save n cfg) := by
  rcases choice with confirm | confirm | _
  · by_cases hb : strStrip taskName = ""
    · simp [configureSchedule, scheduleDialogOutcome, hb]
    · by_cases he : triggers.isEmpty
      · rcases confirm with _ | _ <;>
          simp_all [configureSchedule, scheduleDialogOutcome, hb,
            List.isEmpty_iff]
      · have hne : triggers ≠ [] := by
          simpa [List.isEmpty_iff] using he
        simp [configureSchedule, scheduleDialogOutcome, hb, he]
        exact hne
  · rcases confirm with _ | _ <;>
      simp [configureSchedule, scheduleDialogOutcome]
  · simp [configureSchedule, scheduleDialogOutcome]

/-- C8 witness: confirming with zero triggers and answering Yes to the prompt
is a delete, never a save. -/
theorem C8_zero_triggers_never_saved_witness :
    (DialogChoice.pressOk true = DialogChoice.pressDeleteAll true ∨
      (([] : List Trigger) = [] ∧
        DialogChoice.pressOk true = DialogChoice.pressOk true)) ∧
    configureSchedule "s" "T" [] (.pressOk true) ≠
      .save "s" ⟨true, "T", []⟩ :=
  ⟨(C8_zero_triggers_never_saved "s" "T" [] (.pressOk true)).2.1 "s" (by decide),
    (C8_zero_triggers_never_saved "s" "T" [] (.pressOk true)).2.2 rfl "s"
      ⟨true, "T", []⟩⟩

/-! ## Claim C10 — the wrapper's fallthrough dispatch -/

/-- C10: for a target whose suffix is none of `.ps1`, `.py`, `.bat`, `.cmd`,
the generated wrapper reports no unsupported-type error: the command falls
through to the target path itself, normal completion exits with the child's
code and logs no error line, and only a spawn failure (exception) or the
timeout makes it exit 1, logging that failure. -/
theorem C10_wrapper_fallthrough (p exe : String) (e : PyErr) (rc : Nat)
    (h1 : strLower (pathSuffix p) ≠ ".ps1") (h2 : strLower (pathSuffix p) ≠ ".py")
    (h3 : strLower (pathSuffix p) ≠ ".bat") (h4 : strLower (pathSuffix p) ≠ ".cmd") :
    wrapperCommand p exe = [p] ∧
      wrapperExitCode (.completed rc) = rc ∧
      wrapperErrorLine (.completed rc) = none ∧
      wrapperExitCode (.raised e) = 1 ∧
      wrapperErrorLine (.raised e) = some ("\n❌ ERRORE: " ++ e.str ++ "\n") ∧
      wrapperExitCode .timedOut = 1 := by
  refine ⟨?_, rfl, rfl, rfl, rfl, rfl⟩
  simp [wrapperCommand, h1, h2, h3, h4]

/-- C10 witness: the wrapper dispatch at a concrete `.exe` target. -/
theorem C10_wrapper_fallthrough_witness :
    wrapperCommand "C:/tools/run.exe" "C:/py.exe" = ["C:/tools/run.exe"] ∧
      wrapperExitCode (.completed 7) = 7 ∧
      wrapperErrorLine (.completed 7) = none ∧
      wrapperExitCode (.raised (.osError "spawn failed")) = 1 ∧
      wrapperErrorLine (.raised (.osError "spawn failed")) =
        some ("\n❌ ERRORE: " ++ (PyErr.osError "spawn failed").str ++ "\n") ∧
      wrapperExitCode .timedOut = 1 :=
  C10_wrapper_fallthrough "C:/tools/run.exe" "C:/py.exe" (.osError "spawn failed")
    7 (by decide) (by decide) (by decide) (by decide)

/-! ## Claim C6 — store round-trip: decimal digits -/

theorem natDigitsAux_lt : ∀ (fuel n d : Nat), d ∈ natDigitsAux fuel n → d < 10 := by
  intro fuel
  induction fuel with
  | zero => intro n d hd; simp [natDigitsAux] at hd
  | succ f ih =>
    intro n d hd
    by_cases h0 : n = 0
    · simp [natDigitsAux, h0] at hd
    · rw [natDigitsAux, if_neg h0] at hd
      rcases List.mem_cons.mp hd with h | h
      · subst h; omega
      · exact ih _ _ h

theorem ofDigits_natDigitsAux : ∀ (fuel n : Nat), n ≤ fuel →
    Nat.ofDigits 10 (natDigitsAux fuel n) = n := by
  intro fuel
  induction fuel with
  | zero =>
    intro n h
    have : n = 0 := by omega
    subst this
    simp [natDigitsAux, Nat.ofDigits_nil]
  | succ f ih =>
    intro n h
    by_cases h0 : n = 0
    · subst h0; simp [natDigitsAux, Nat.ofDigits_nil]
    · have hdiv : n / 10 ≤ f := by
        have : n / 10 < n := Nat.div_lt_self (Nat.pos_of_ne_zero h0) (by norm_num)
        omega
      rw [natDigitsAux, if_neg h0, Nat.ofDigits_cons, ih _ hdiv]
      omega

theorem foldl_digits (l : List Nat) : ∀ x : Nat,
    List.foldl (fun a d => 10 * a + d) x l =
      x * 10 ^ l.length + Nat.ofDigits 10 l.reverse := by
  induction l with
  | nil => intro x; simp [Nat.ofDigits_nil]
  | cons d l ih =>
    intro x
    simp only [List.foldl_cons, ih, List.length_cons, List.reverse_cons]
    rw [Nat.ofDigits_append]
    simp only [Nat.ofDigits_cons, Nat.ofDigits_nil, List.length_reverse]
    push_cast
    ring

theorem toNat_digitChar {d : Nat} (h : d < 10) : (digitChar d).toNat = 48 + d := by
  interval_cases d <;> rfl

theorem isDigit_digitChar {d : Nat} (h : d < 10) : (digitChar d).isDigit = true := by
  interval_cases d <;> decide

theorem foldl_map_digitChar : ∀ (l : List Nat), (∀ d ∈ l, d < 10) → ∀ x : Nat,
    List.foldl (fun a c => 10 * a + (c.toNat - 48)) x (l.map digitChar) =
      List.foldl (fun a d => 10 * a + d) x l := by
  intro l
  induction l with
  | nil => intro _ x; rfl
  | cons d l ih =>
    intro h x
    simp only [List.map_cons, List.foldl_cons]
    rw [toNat_digitChar (h d (by simp))]
    have h48 : 48 + d - 48 = d := by omega
    rw [h48]
    exact ih (fun d' hd' => h d' (by simp [hd'])) _

theorem charsVal_natChars (n : Nat) : charsVal (natChars n) = n := by
  by_cases h0 : n = 0
  · subst h0; rfl
  · unfold natChars charsVal
    rw [if_neg h0]
    rw [foldl_map_digitChar _
      (fun d hd => natDigitsAux_lt n n d (List.mem_reverse.mp hd)) 0]
    rw [foldl_digits]
    simp [List.reverse_reverse, ofDigits_natDigitsAux n n le_rfl]

theorem natChars_all_digits (n : Nat) : ∀ c ∈ natChars n, c.isDigit = true := by
  intro c hc
  unfold natChars at hc
  by_cases h0 : n = 0
  · rw [if_pos h0] at hc
    simp at hc
    subst hc
    decide
  · rw [if_neg h0] at hc
    simp only [List.mem_map] at hc
    obtain ⟨d, hd, rfl⟩ := hc
    exact isDigit_digitChar (natDigitsAux_lt _ _ _ (List.mem_reverse.mp hd))

theorem natChars_ne_nil (n : Nat) : natChars n ≠ [] := by
  unfold natChars
  by_cases h0 : n = 0
  · simp [h0]
  · rw [if_neg h0]
    obtain ⟨m, rfl⟩ := Nat.exists_eq_succ_of_ne_zero h0
    simp [natDigitsAux]

theorem takeDigits_append (ds rest : List Char)
    (h : ∀ c ∈ ds, c.isDigit = true)
    (hr : ∀ c, rest.head? = some c → c.isDigit = false) :
    takeDigits (ds ++ rest) = (ds, rest) := by
  induction ds with
  | nil =>
    simp only [List.nil_append]
    cases rest with
    | nil => rfl
    | cons c cs => simp [takeDigits, hr c rfl]
  | cons c ds ih =>
    have hc := h c (by simp)
    simp [takeDigits, hc, ih (fun c' hc' => h c' (by simp [hc']))]

theorem parseNatLit_natChars (n : Nat) (rest : List Char)
    (hr : ∀ c, rest.head? = some c → c.isDigit = false) :
    parseNatLit (natChars n ++ rest) = some (n, rest) := by
  unfold parseNatLit
  rw [takeDigits_append _ _ (natChars_all_digits n) hr]
  simp [List.isEmpty_iff, natChars_ne_nil, charsVal_natChars]

/-! ## Claim C6 — store round-trip: string literals -/

theorem hexVal_hexDigitChar {d : Nat} (h : d < 16) :
    hexVal (hexDigitChar d) = some d := by
  interval_cases d <;> decide

theorem parseStrLitAux_escape : ∀ (s rest : List Char),
    parseStrLitAux (escapeChars s ++ '"' :: rest) = some (s, rest) := by
  intro s
  induction s with
  | nil =>
    intro rest
    rw [parseStrLitAux.eq_def]
    simp [escapeChars]
  | cons c s ih =>
    intro rest
    show parseStrLitAux ((escapeChar c ++ escapeChars s) ++ '"' :: rest) = _
    rw [List.append_assoc]
    by_cases h1 : c = '"'
    · subst h1
      rw [show escapeChar '"' = ['\\', '"'] from rfl]
      rw [parseStrLitAux.eq_def]
      simp [unescapeChar, ih]
    · by_cases h2 : c = '\\'
      · subst h2
        rw [show escapeChar '\\' = ['\\', '\\'] from rfl]
        rw [parseStrLitAux.eq_def]
        simp [unescapeChar, ih]
      · by_cases h3 : c = '\n'
        · subst h3
          rw [show escapeChar '\n' = ['\\', 'n'] from rfl]
          rw [parseStrLitAux.eq_def]
          simp [unescapeChar, ih]
        · by_cases h4 : c = '\t'
          · subst h4
            rw [show escapeChar '\t' = ['\\', 't'] from rfl]
            rw [parseStrLitAux.eq_def]
            simp [unescapeChar, ih]
          · by_cases h5 : c = '\r'
            · subst h5
              rw [show escapeChar '\r' = ['\\', 'r'] from rfl]
              rw [parseStrLitAux.eq_def]
              simp [unescapeChar, ih]
            · by_cases h6 : c.toNat = 8
              · have he : escapeChar c = ['\\', 'b'] := by
                  simp [escapeChar, h1, h2, h3, h4, h5, h6]
                have hc : Char.ofNat 8 = c := by
                  rw [← h6, Char.ofNat_toNat]
                rw [he]
                rw [parseStrLitAux.eq_def]
                simp [unescapeChar, ih]
                exact hc
              · by_cases h7 : c.toNat = 12
                · have he : escapeChar c = ['\\', 'f'] := by
                    simp [escapeChar, h1, h2, h3, h4, h5, h6, h7]
                  have hc : Char.ofNat 12 = c := by
                    rw [← h7, Char.ofNat_toNat]
                  rw [he]
                  rw [parseStrLitAux.eq_def]
                  simp [unescapeChar, ih]
                  exact hc
                · by_cases h8 : c.toNat < 32
                  · have he : escapeChar c = ['\\', 'u', '0', '0',
                        hexDigitChar (c.toNat / 16), hexDigitChar (c.toNat % 16)] := by
                      simp [escapeChar, h1, h2, h3, h4, h5, h6, h7, h8]
                    rw [he]
                    have hhi : c.toNat / 16 < 16 := by omega
                    have hlo : c.toNat % 16 < 16 := by omega
                    have hval : ((0 * 16 + 0) * 16 + c.toNat / 16) * 16 +
                        c.toNat % 16 = c.toNat := by omega
                    rw [parseStrLitAux.eq_def]
                    simp [show hexVal '0' = some 0 from rfl,
                      hexVal_hexDigitChar hhi, hexVal_hexDigitChar hlo, ih]
                    have hval2 : c.toNat / 16 * 16 + c.toNat % 16 = c.toNat := by
                      omega
                    rw [hval2, Char.ofNat_toNat]
                  · have he : escapeChar c = [c] := by
                      simp [escapeChar, h1, h2, h3, h4, h5, h6, h7, h8]
                    rw [he]
                    rw [parseStrLitAux.eq_def]
                    simp [h1, h2, ih]

theorem parseJStr_jstr (s : String) (rest : List Char) :
    parseJStr (jstrChars s ++ rest) = some (s, rest) := by
  simp only [jstrChars, List.cons_append, List.append_assoc, List.singleton_append]
  simp [parseJStr, parseStrLitAux_escape]

/-! ## Claim C6 — store round-trip: arrays, triggers, the whole document -/

theorem renderDaysItems_length (k : Nat) : ∀ (ds : List String),
    ds.length ≤ (renderDaysItems k ds).length := by
  intro ds
  induction ds with
  | nil => simp [renderDaysItems]
  | cons d rest ih =>
    cases rest with
    | nil =>
      simp [renderDaysItems, jstrChars]
      omega
    | cons d2 rest2 =>
      show _ ≤ (indChars (k + 1) ++ jstrChars d ++
        ',' :: '\n' :: renderDaysItems k (d2 :: rest2)).length
      simp only [List.length_cons, List.length_append]
      simp only [List.length_cons] at ih
      omega

theorem parseDaysItems_render (k : Nat) : ∀ (ds : List String) (fuel : Nat) (rest : List Char),
    ds ≠ [] → ds.length ≤ fuel →
    parseDaysItems k fuel (renderDaysItems k ds ++ rest) = some (ds, rest) := by
  intro ds
  induction ds with
  | nil => intro fuel rest h; exact absurd rfl h
  | cons d ds ih =>
    intro fuel rest _ hfuel
    have hf1 : 1 ≤ fuel := le_trans (by simp) hfuel
    obtain ⟨f, rfl⟩ : ∃ f, fuel = f + 1 := ⟨fuel - 1, by omega⟩
    cases ds with
    | nil =>
      show parseDaysItems k (f + 1)
        ((indChars (k + 1) ++ jstrChars d ++ '\n' :: (indChars k ++ [']'])) ++ rest) = _
      simp only [List.append_assoc, List.cons_append, List.singleton_append]
      simp [parseDaysItems, expectChars_self_append, parseJStr_jstr,
        show ∀ r : List Char, expectChars (indChars k ++ [']'])
          (indChars k ++ (']' :: r)) = some r from fun r => by
            rw [expectChars_eq_some]; simp]
    | cons d2 ds2 =>
      show parseDaysItems k (f + 1)
        ((indChars (k + 1) ++ jstrChars d ++ ',' :: '\n' :: renderDaysItems k (d2 :: ds2)) ++ rest) = _
      simp only [List.append_assoc, List.cons_append]
      simp [parseDaysItems, expectChars_self_append, parseJStr_jstr,
        ih f rest (by simp) (by simpa using hfuel)]

theorem parseDays_render (k : Nat) (ds : List String) (rest : List Char) :
    parseDays k (renderDaysChars k ds ++ rest) = some (ds, rest) := by
  cases ds with
  | nil => rfl
  | cons d ds' =>
    show parseDays k (('[' :: '\n' :: renderDaysItems k (d :: ds')) ++ rest) = _
    simp only [List.cons_append]
    rw [parseDays]
    exact parseDaysItems_render k (d :: ds') _ rest (by simp)
      (by
        have h1 := renderDaysItems_length k (d :: ds')
        simp only [List.length_append]
        omega)

theorem head_not_digit_trigClose (k : Nat) (rest : List Char) :
    ∀ c, (trigClose k ++ rest).head? = some c → c.isDigit = false := by
  intro c hc
  have h : (trigClose k ++ rest).head? = some '\n' := by simp [trigClose]
  rw [h] at hc
  cases hc
  decide

theorem parseTrigger_render (k : Nat) (t : Trigger) (rest : List Char) :
    parseTrigger k (renderTriggerChars k t ++ rest) = some (t, rest) := by
  cases t with
  | once dt =>
    show parseTrigger k ((trigHead k ++ (jstrChars "once" ++ (trigData k ++
      (keySeg k "datetime" ++ (jstrChars dt ++ trigClose k))))) ++ rest) = _
    simp only [List.append_assoc]
    simp [parseTrigger, expectChars_self_append, parseJStr_jstr]
  | daily tm i =>
    show parseTrigger k ((trigHead k ++ (jstrChars "daily" ++ (trigData k ++
      (keySeg k "time" ++ (jstrChars tm ++ (commaKeySeg k "interval" ++
        (natChars i ++ trigClose k))))))) ++ rest) = _
    simp only [List.append_assoc]
    simp [parseTrigger, expectChars_self_append, parseJStr_jstr,
      parseNatLit_natChars i (trigClose k ++ rest) (head_not_digit_trigClose k rest)]
  | weekly tm ds =>
    show parseTrigger k ((trigHead k ++ (jstrChars "weekly" ++ (trigData k ++
      (keySeg k "time" ++ (jstrChars tm ++ (commaKeySeg k "days" ++
        (renderDaysChars (k + 2) ds ++ trigClose k))))))) ++ rest) = _
    simp only [List.append_assoc]
    simp [parseTrigger, expectChars_self_append, parseJStr_jstr,
      parseDays_render (k + 2) ds (trigClose k ++ rest)]

theorem trigHead_length_pos (k : Nat) : 1 ≤ (trigHead k).length := by
  have h2 : (("\x7b\n").data).length = 2 := rfl
  simp only [trigHead, List.length_append, h2]
  omega

theorem renderTriggerChars_length_pos (k : Nat) (t : Trigger) :
    1 ≤ (renderTriggerChars k t).length := by
  have hp := trigHead_length_pos k
  cases t <;> simp only [renderTriggerChars, List.length_append] <;> omega

theorem renderTriggersItems_length : ∀ (ts : List Trigger),
    ts.length ≤ (renderTriggersItems ts).length := by
  intro ts
  induction ts with
  | nil => simp [renderTriggersItems]
  | cons t rest ih =>
    cases rest with
    | nil =>
      show _ ≤ (indChars 2 ++ renderTriggerChars 2 t ++
        '\n' :: (indChars 1 ++ [']'])).length
      have := renderTriggerChars_length_pos 2 t
      simp only [List.length_cons, List.length_append, List.length_nil]
      omega
    | cons t2 rest2 =>
      show _ ≤ (indChars 2 ++ renderTriggerChars 2 t ++
        ',' :: '\n' :: renderTriggersItems (t2 :: rest2)).length
      simp only [List.length_cons, List.length_append, List.length_nil]
      simp only [List.length_cons] at ih
      omega

theorem parseTriggersItems_render : ∀ (ts : List Trigger) (fuel : Nat) (rest : List Char),
    ts ≠ [] → ts.length ≤ fuel →
    parseTriggersItems fuel (renderTriggersItems ts ++ rest) = some (ts, rest) := by
  intro ts
  induction ts with
  | nil => intro fuel rest h; exact absurd rfl h
  | cons t ts ih =>
    intro fuel rest _ hfuel
    have hf1 : 1 ≤ fuel := le_trans (by simp) hfuel
    obtain ⟨f, rfl⟩ : ∃ f, fuel = f + 1 := ⟨fuel - 1, by omega⟩
    cases ts with
    | nil =>
      show parseTriggersItems (f + 1)
        ((indChars 2 ++ renderTriggerChars 2 t ++ '\n' :: (indChars 1 ++ [']'])) ++ rest) = _
      simp only [List.append_assoc, List.cons_append, List.singleton_append]
      simp [parseTriggersItems, expectChars_self_append,
        parseTrigger_render 2 t ('\n' :: (indChars 1 ++ (']' :: rest))),
        show ∀ r : List Char, expectChars (indChars 1 ++ [']'])
          (indChars 1 ++ (']' :: r)) = some r from fun r => by
            rw [expectChars_eq_some]; simp]
    | cons t2 ts2 =>
      show parseTriggersItems (f + 1)
        ((indChars 2 ++ renderTriggerChars 2 t ++
          ',' :: '\n' :: renderTriggersItems (t2 :: ts2)) ++ rest) = _
      simp only [List.append_assoc, List.cons_append]
      simp [parseTriggersItems, expectChars_self_append,
        parseTrigger_render 2 t (',' :: '\n' :: (renderTriggersItems (t2 :: ts2) ++ rest)),
        ih f rest (by simp) (by simpa using hfuel)]

theorem parseTriggers_render (ts : List Trigger) (rest : List Char) :
    parseTriggers (renderTriggersChars ts ++ rest) = some (ts, rest) := by
  cases ts with
  | nil => rfl
  | cons t ts' =>
    show parseTriggers (('[' :: '\n' :: renderTriggersItems (t :: ts')) ++ rest) = _
    simp only [List.cons_append]
    rw [parseTriggers]
    exact parseTriggersItems_render (t :: ts') _ rest (by simp)
      (by
        have h1 := renderTriggersItems_length (t :: ts')
        simp only [List.length_append]
        omega)

theorem parseBoolLit_render (b : Bool) (rest : List Char) :
    parseBoolLit ((if b then ("true").data else ("false").data) ++ rest) =
      some (b, rest) := by
  cases b with
  | true =>
    show parseBoolLit (("true").data ++ rest) = some (true, rest)
    unfold parseBoolLit
    rw [expectChars_self_append]
  | false =>
    show parseBoolLit (("false").data ++ rest) = some (false, rest)
    unfold parseBoolLit
    rw [show expectChars ("true").data (("false").data ++ rest) = none from rfl,
      expectChars_self_append]

theorem parseConfigChars_render (cfg : ScheduleConfig) (rest : List Char) :
    parseConfigChars (renderConfigChars cfg ++ rest) = some (cfg, rest) := by
  show parseConfigChars ((cfgHead ++ ((if cfg.enabled then ("true").data else ("false").data) ++
    (cfgTaskNameSeg ++ (jstrChars cfg.taskName ++
      (cfgTriggersSeg ++ (renderTriggersChars cfg.triggers ++ cfgClose)))))) ++ rest) = _
  simp only [List.append_assoc]
  simp [parseConfigChars, expectChars_self_append, parseJStr_jstr,
    parseBoolLit_render cfg.enabled, parseTriggers_render cfg.triggers]

/-- C6: for every schedule configuration (any task name, any trigger list in
any order, `enabled` either way), saving through `save_schedule_config` and
loading back through `load_schedule_config` returns a configuration equal to
the one saved, triggers order included: the JSON dump/parse of the config
document is the identity. -/
theorem C6_schedule_roundtrip (name : String) (cfg : ScheduleConfig)
    (st : ScheduleStore) :
    loadScheduleConfig name (saveScheduleConfig name cfg st) = some cfg := by
  unfold loadScheduleConfig saveScheduleConfig storePut storeGet
  simp only [List.find?]
  simp [parseConfig]
  have h := parseConfigChars_render cfg []
  rw [List.append_nil] at h
  simp [h]

end SysToolset
